import Mathlib

/-!
Verification of the data-loading / filtering pipeline of the California
traffic-collisions dashboard (`src/app.py`).

The embedding models a pandas DataFrame as a `List Row`, where `Row` carries
the union of the columns appearing in the three CSV extracts
(`choropleth.csv`, `hourly.csv`, `day_of_week.csv`).  File storage is a map
from file names to optionally-present parsed row lists; `pd.read_csv` on a
missing file raises, modelled as `Except.error`.  The `@st.cache` memoization
on `load_data` is modelled by explicit cache-state passing, with a boolean
recording whether the call read storage.
-/

/-- One row of any of the three CSV extracts.  Columns not present in a given
file are simply unused by the operations on that file.  `FIPS` is kept as the
string form of the source cell (the code applies `.astype(str)` before any
string operation). -/
structure Row where
  county : String
  FIPS : String
  year_option : String
  killed_victims : Nat
  collision_hour : Nat
  collision_day : String
deriving Repr, DecidableEq

/-- The year selector offered by the UI: the string `"all"` or a literal
year, mirroring the mixed `str`/`int` contents of `year_options` in
`descriptive_analytics`. -/
inductive YearSel where
  | all : YearSel
  | year : Nat → YearSel
deriving Repr, DecidableEq

/-- `str(year)` as applied at each filter site (`app.py` lines 61, 95, 116). -/
def YearSel.str : YearSel → String
  | .all => "all"
  | .year n => toString n

/-- File storage: maps a file name to the parsed rows of that file, or
`none` when the file is missing/unreadable. -/
abbrev FS := String → Option (List Row)

/-- Error raised by a failed load (an unhandled `pd.read_csv` fault). -/
inductive LoadError where
  | fileNotFound : String → LoadError
deriving Repr, DecidableEq

/-- `pd.read_csv` (app.py lines 20-22): returns the file's rows, or raises
when the file is missing/unreadable. -/
def read_csv (fs : FS) (f : String) : Except LoadError (List Row) :=
  match fs f with
  | none => .error (.fileNotFound f)
  | some rows => .ok rows

/-- The `if`/`elif`/`else` chain choosing the source file
(app.py lines 12-17); `none` models the omitted/`None` argument. -/
def sourceFile (type : Option String) : String :=
  if type = some "choropleth" then "choropleth.csv"
  else if type = some "hourly" then "hourly.csv"
  else "day_of_week.csv"

/-- The identifier-padding transform applied to each choropleth row
(app.py line 26): `collisions["FIPS"] = "0" + collisions["FIPS"].astype(str)`. -/
def padFIPS (r : Row) : Row := { r with FIPS := "0" ++ r.FIPS }

/-- The body of `load_data` (app.py lines 10-28), without the cache. -/
def load_data (fs : FS) (type : Option String) : Except LoadError (List Row) :=
  match read_csv fs (sourceFile type) with
  | .error e => .error e
  | .ok collisions =>
    if type = some "choropleth" then .ok (collisions.map padFIPS)
    else .ok collisions

/-- Memoization state of `@st.cache`, keyed by the `type` argument. -/
abbrev Cache := Option String → Option (List Row)

/-- The cache before any call. -/
def emptyCache : Cache := fun _ => none

/-- `load_data` with its `@st.cache` decorator: returns the memoized rows if
present, otherwise runs the body and stores a successful result.  The boolean
is `true` exactly when the call read storage. -/
def load_data_cached (fs : FS) (c : Cache) (type : Option String) :
    Except LoadError (List Row) × Cache × Bool :=
  match c type with
  | some rows => (.ok rows, c, false)
  | none =>
    match load_data fs type with
    | .ok rows => (.ok rows, fun t => if t = type then some rows else c t, true)
    | .error e => (.error e, c, true)

/-- The year filter (app.py line 61, also lines 95 and 116):
`collisions[collisions["year_option"] == str(year)]`. -/
def filterByYear (collisions : List Row) (year : String) : List Row :=
  collisions.filter (fun r => r.year_option == year)

/-- The data pipeline of `generate_choropleth_map` (app.py lines 56-61):
cached load of the choropleth set, then the year filter.  Rendering consumes
the result without further transformation. -/
def choropleth_pipeline (fs : FS) (c : Cache) (year : YearSel) :
    Except LoadError (List Row) × Cache :=
  match load_data_cached fs c (some "choropleth") with
  | (.ok collisions, c2, _) => (.ok (filterByYear collisions year.str), c2)
  | (.error e, c2, _) => (.error e, c2)

/-- The data pipeline of `generate_collisions_by_hour_bar_graph`
(app.py lines 90-95): load the hourly set, then the year filter. -/
def hourly_filtered (fs : FS) (year : YearSel) : Except LoadError (List Row) :=
  match load_data fs (some "hourly") with
  | .error e => .error e
  | .ok collisions => .ok (filterByYear collisions year.str)

/-- Sum of the `killed_victims` column over a row set. -/
def totalFatalities (rs : List Row) : Nat := (rs.map Row.killed_victims).sum

/-- Modelled from the spec: "the total fatalities reported for 2020 in the
source file" — the sum of fatality counts over exactly those rows of the
source file whose year field equals the given year.  Stated directly over
the unfiltered file contents, for comparison with the pipeline's result. -/
def totalReportedFor (rs : List Row) (year : String) : Nat :=
  (rs.map (fun r => if r.year_option = year then r.killed_victims else 0)).sum

/-- The `year_options` list built in `descriptive_analytics`
(app.py lines 140-143): start from `["all"]` and append each year of
`range(2001, 2022)` in order. -/
def year_options : List YearSel :=
  (List.range' 2001 21).foldl (fun acc year => acc ++ [YearSel.year year]) [YearSel.all]

/-! Concrete sample data, used by witnesses and counterexamples. -/

/-- A sample row with the given identifier, year field and fatality count. -/
def mkRow (fips year : String) (k : Nat) : Row :=
  { county := "Alameda", FIPS := fips, year_option := year, killed_victims := k,
    collision_hour := 0, collision_day := "Monday" }

/-- Sample choropleth extract: source identifiers of differing widths. -/
def choroRows : List Row := [mkRow "123" "2020" 5, mkRow "6001" "all" 7]

/-- Sample hourly extract. -/
def hourlyRows : List Row := [mkRow "6001" "2020" 3, mkRow "6001" "all" 9]

/-- Sample day-of-week extract. -/
def dayRows : List Row := [mkRow "6001" "all" 4]

/-- Sample storage holding all three source files. -/
def fsDemo : FS := fun f =>
  if f = "choropleth.csv" then some choroRows
  else if f = "hourly.csv" then some hourlyRows
  else if f = "day_of_week.csv" then some dayRows
  else none

/-- Storage with every file missing. -/
def fsEmpty : FS := fun _ => none

/-- Sample cache already holding the choropleth record set. -/
def cDemo : Cache := fun t => if t = some "choropleth" then some choroRows else none

/-! Helper lemmas shared by the claim theorems. -/

/-- Summing fatalities over the filtered rows equals summing, over the whole
file, the fatality count of exactly the rows whose year field matches. -/
theorem totalFatalities_filterByYear (rs : List Row) (y : String) :
    totalFatalities (filterByYear rs y) = totalReportedFor rs y := by
  induction rs with
  | nil => rfl
  | cons r rs ih =>
    by_cases hy : r.year_option = y <;>
      simp [filterByYear, totalFatalities, totalReportedFor, List.filter_cons, hy] at ih ⊢ <;>
      omega

/-- A successful uncached load, given the chosen file's contents. -/
theorem load_data_ok (fs : FS) (k : Option String) (rows : List Row)
    (h : fs (sourceFile k) = some rows) :
    load_data fs k =
      .ok (if k = some "choropleth" then rows.map padFIPS else rows) := by
  by_cases hk : k = some "choropleth"
  · subst hk; simp [load_data, read_csv, h]
  · simp [load_data, read_csv, h, hk]

/-! Claim theorems. -/

/-- C1 counterexample: on a record set whose single record has year field
"2020", filtering with the "all" sentinel returns the empty set, not the
full set, and the record count (0) differs from the unfiltered count (1). -/
theorem c1_all_sentinel_counterexample :
    filterByYear [mkRow "6001" "2020" 5] YearSel.all.str = [] ∧
    filterByYear [mkRow "6001" "2020" 5] YearSel.all.str ≠ [mkRow "6001" "2020" 5] ∧
    (filterByYear [mkRow "6001" "2020" 5] YearSel.all.str).length ≠
      ([mkRow "6001" "2020" 5] : List Row).length := by
  refine ⟨rfl, ?_, ?_⟩ <;> decide

/-- C1 (amended): the "all" sentinel is not a pass-through.  Filtering with
it selects exactly the records whose year field is the literal string "all",
and it returns the full record set unchanged precisely when every record's
year field is "all". -/
theorem c1_all_sentinel_is_equality_filter (rs : List Row) :
    filterByYear rs YearSel.all.str = rs.filter (fun r => r.year_option == "all") ∧
    (filterByYear rs YearSel.all.str = rs ↔ ∀ r ∈ rs, r.year_option = "all") := by
  refine ⟨rfl, ?_⟩
  simp [filterByYear, YearSel.str, List.filter_eq_self]

/-- C2 counterexample: with source identifiers "123" and "6001" in the
choropleth file, the loader's transform yields identifiers "0123" (width 4)
and "06001" (width 5): there is no single fixed width, so the identifier is
not a zero-left-padded string of one fixed width regardless of source
width. -/
theorem c2_pad_not_fixed_width_counterexample :
    load_data fsDemo (some "choropleth") = .ok (choroRows.map padFIPS) ∧
    (padFIPS (mkRow "123" "2020" 5)).FIPS = "0123" ∧
    (padFIPS (mkRow "6001" "all" 7)).FIPS = "06001" ∧
    ¬ ∃ w, ∀ r ∈ choroRows.map padFIPS, r.FIPS.length = w := by
  refine ⟨rfl, rfl, rfl, ?_⟩
  rintro ⟨w, hw⟩
  have h1 := hw (padFIPS (mkRow "123" "2020" 5)) (by decide)
  have h2 := hw (padFIPS (mkRow "6001" "all" 7)) (by decide)
  have e1 : (padFIPS (mkRow "123" "2020" 5)).FIPS.length = 4 := by decide
  have e2 : (padFIPS (mkRow "6001" "all" 7)).FIPS.length = 5 := by decide
  omega

/-- C2 (amended): the transform prepends exactly one "0" to the string form
of each source identifier, so after loading each identifier's width is its
source width plus one; the widths are uniform only when the source widths
are (e.g. width 5 when every source identifier has 4 digits). -/
theorem c2_pad_prepends_one_zero (fs : FS) (rows : List Row)
    (h : fs "choropleth.csv" = some rows) :
    load_data fs (some "choropleth") = .ok (rows.map padFIPS) ∧
    (∀ r ∈ rows, (padFIPS r).FIPS = "0" ++ r.FIPS ∧
      (padFIPS r).FIPS.length = r.FIPS.length + 1) ∧
    ∀ w, (∀ r ∈ rows, r.FIPS.length = w) →
      ∀ r ∈ rows.map padFIPS, r.FIPS.length = w + 1 := by
  refine ⟨?_, ?_, ?_⟩
  · simpa using load_data_ok fs (some "choropleth") rows (by simpa [sourceFile] using h)
  · intro r _
    refine ⟨rfl, ?_⟩
    have h0 : ("0" : String).length = 1 := rfl
    simp only [padFIPS, String.length_append, h0]
    omega
  · intro w hw r hr
    rcases List.mem_map.mp hr with ⟨s, hs, rfl⟩
    have h0 : ("0" : String).length = 1 := rfl
    simp only [padFIPS, String.length_append, h0]
    rw [hw s hs]
    omega

/-- C2 witness. -/
theorem c2_pad_prepends_one_zero_witness :
    fsDemo "choropleth.csv" = some choroRows ∧
    load_data fsDemo (some "choropleth") = .ok (choroRows.map padFIPS) :=
  ⟨rfl, (c2_pad_prepends_one_zero fsDemo choroRows rfl).1⟩

/-- C3: filtering with a literal year selector keeps exactly the records
whose year field, compared as a string, equals the selector; if no record's
year field matches, the result is empty. -/
theorem c3_filter_literal_year (rs : List Row) (y : Nat) :
    (∀ r, r ∈ filterByYear rs (YearSel.year y).str ↔
      r ∈ rs ∧ r.year_option = toString y) ∧
    ((∀ r ∈ rs, r.year_option ≠ toString y) →
      filterByYear rs (YearSel.year y).str = []) := by
  constructor
  · intro r
    simp [filterByYear, YearSel.str, List.mem_filter]
  · intro hab
    simp only [filterByYear, YearSel.str, List.filter_eq_nil_iff]
    intro r hr
    simpa using hab r hr

/-- C4: a missing or unreadable source file makes `load_data` fail with the
propagated read error; it never returns a record set, in particular never a
silently empty one. -/
theorem c4_missing_file_fails (fs : FS) (k : Option String)
    (h : fs (sourceFile k) = none) :
    load_data fs k = .error (.fileNotFound (sourceFile k)) ∧
    ∀ rows, load_data fs k ≠ .ok rows := by
  have hr : read_csv fs (sourceFile k) = .error (.fileNotFound (sourceFile k)) := by
    simp [read_csv, h]
  constructor
  · by_cases hk : k = some "choropleth"
    · subst hk; simp [load_data, hr]
    · simp [load_data, hr, hk]
  · intro rows
    by_cases hk : k = some "choropleth"
    · subst hk; simp [load_data, hr]
    · simp [load_data, hr, hk]

/-- C4 witness: with every file missing, loading the choropleth set fails
and in particular is not the empty record set. -/
theorem c4_missing_file_fails_witness :
    fsEmpty (sourceFile (some "choropleth")) = none ∧
    load_data fsEmpty (some "choropleth") =
      .error (.fileNotFound (sourceFile (some "choropleth"))) ∧
    load_data fsEmpty (some "choropleth") ≠ .ok [] :=
  ⟨rfl, (c4_missing_file_fails fsEmpty (some "choropleth") rfl).1,
    (c4_missing_file_fails fsEmpty (some "choropleth") rfl).2 []⟩

/-- C5: for every dataset kind whose source file is present, memoized loading
is idempotent: the first call reads storage and caches, and a second call
with the same kind returns the identical record set from the cache without
reading storage and without changing the cache. -/
theorem c5_load_idempotent (fs : FS) (k : Option String) (rows : List Row)
    (h : fs (sourceFile k) = some rows) :
    ∃ rows1 c1,
      load_data_cached fs emptyCache k = (.ok rows1, c1, true) ∧
      load_data_cached fs c1 k = (.ok rows1, c1, false) := by
  have hld := load_data_ok fs k rows h
  refine ⟨if k = some "choropleth" then rows.map padFIPS else rows,
    fun t => if t = k then
        some (if k = some "choropleth" then rows.map padFIPS else rows)
      else emptyCache t, ?_, ?_⟩
  · simp [load_data_cached, emptyCache, hld]
  · simp [load_data_cached]

/-- C5 witness. -/
theorem c5_load_idempotent_witness :
    fsDemo (sourceFile (some "hourly")) = some hourlyRows ∧
    ∃ rows1 c1,
      load_data_cached fsDemo emptyCache (some "hourly") = (.ok rows1, c1, true) ∧
      load_data_cached fsDemo c1 (some "hourly") = (.ok rows1, c1, false) :=
  ⟨rfl, c5_load_idempotent fsDemo (some "hourly") hourlyRows rfl⟩

/-- C6: filtering the hourly set for year "2020" keeps exactly the rows whose
year field is "2020", and the sum of fatality counts over the filtered rows
equals the total fatalities reported for 2020 in the source file. -/
theorem c6_hourly_2020_sum (fs : FS) (rows : List Row)
    (h : fs "hourly.csv" = some rows) :
    hourly_filtered fs (YearSel.year 2020) = .ok (filterByYear rows "2020") ∧
    (∀ r ∈ filterByYear rows "2020", r.year_option = "2020") ∧
    totalFatalities (filterByYear rows "2020") = totalReportedFor rows "2020" := by
  have hs : sourceFile (some "hourly") = "hourly.csv" := rfl
  have hld := load_data_ok fs (some "hourly") rows (by rw [hs]; exact h)
  refine ⟨?_, ?_, totalFatalities_filterByYear rows "2020"⟩
  · have h20 : (YearSel.year 2020).str = "2020" := rfl
    simp [hourly_filtered, hld, h20]
  · intro r hr
    have := (List.mem_filter.mp hr).2
    simpa using this

/-- C6 witness. -/
theorem c6_hourly_2020_sum_witness :
    fsDemo "hourly.csv" = some hourlyRows ∧
    hourly_filtered fsDemo (YearSel.year 2020) = .ok (filterByYear hourlyRows "2020") ∧
    totalFatalities (filterByYear hourlyRows "2020") =
      totalReportedFor hourlyRows "2020" :=
  ⟨rfl, (c6_hourly_2020_sum fsDemo hourlyRows rfl).1,
    (c6_hourly_2020_sum fsDemo hourlyRows rfl).2.2⟩

/-- C7: with the choropleth set already cached, the choropleth pipeline
returns the filtered subset as a new list, leaves the cache unchanged, and
produces only records drawn from the cached set; a later cached load of the
same kind still yields the full record set without reading storage. -/
theorem c7_filter_is_pure_subset (fs : FS) (c : Cache) (rows : List Row) (y : YearSel)
    (h : c (some "choropleth") = some rows) :
    choropleth_pipeline fs c y = (.ok (filterByYear rows y.str), c) ∧
    (∀ r ∈ filterByYear rows y.str, r ∈ rows) ∧
    load_data_cached fs c (some "choropleth") = (.ok rows, c, false) := by
  have hc : load_data_cached fs c (some "choropleth") = (.ok rows, c, false) := by
    simp [load_data_cached, h]
  refine ⟨?_, ?_, hc⟩
  · simp [choropleth_pipeline, hc]
  · intro r hr
    exact (List.filter_sublist rows).subset hr

/-- C7 witness: the pipeline runs from the cache even over empty storage. -/
theorem c7_filter_is_pure_subset_witness :
    cDemo (some "choropleth") = some choroRows ∧
    choropleth_pipeline fsEmpty cDemo YearSel.all =
      (.ok (filterByYear choroRows YearSel.all.str), cDemo) ∧
    load_data_cached fsEmpty cDemo (some "choropleth") = (.ok choroRows, cDemo, false) :=
  ⟨rfl, (c7_filter_is_pure_subset fsEmpty cDemo choroRows YearSel.all rfl).1,
    (c7_filter_is_pure_subset fsEmpty cDemo choroRows YearSel.all rfl).2.2⟩

/-- C8: the year filter preserves input order: its output is a sublist
(subsequence) of its input. -/
theorem c8_filter_preserves_order (rs : List Row) (y : String) :
    List.Sublist (filterByYear rs y) rs := by
  unfold filterByYear
  exact List.filter_sublist rs

/-- C9: the analysis page's year selector enumerates exactly "all" followed
by the years 2001 through 2021 inclusive, in ascending order. -/
theorem c9_year_options_enumeration :
    year_options =
      [YearSel.all,
        YearSel.year 2001, YearSel.year 2002, YearSel.year 2003, YearSel.year 2004,
        YearSel.year 2005, YearSel.year 2006, YearSel.year 2007, YearSel.year 2008,
        YearSel.year 2009, YearSel.year 2010, YearSel.year 2011, YearSel.year 2012,
        YearSel.year 2013, YearSel.year 2014, YearSel.year 2015, YearSel.year 2016,
        YearSel.year 2017, YearSel.year 2018, YearSel.year 2019, YearSel.year 2020,
        YearSel.year 2021] := by
  rfl

/-- C10: any dataset kind other than "choropleth" and "hourly" — including
the omitted/`None` kind and unrecognized values — falls through to the
default branch: the day-of-week file is chosen and its rows are returned
unchanged, with no identifier-padding transform applied. -/
theorem c10_unrecognized_kind_defaults (fs : FS) (k : Option String) (rows : List Row)
    (h1 : k ≠ some "choropleth") (h2 : k ≠ some "hourly")
    (h : fs "day_of_week.csv" = some rows) :
    sourceFile k = "day_of_week.csv" ∧ load_data fs k = .ok rows := by
  have hs : sourceFile k = "day_of_week.csv" := by simp [sourceFile, h1, h2]
  refine ⟨hs, ?_⟩
  have hld := load_data_ok fs k rows (by rw [hs]; exact h)
  simpa [h1] using hld

/-- C10 witness: an unrecognized kind and the omitted kind both load the
day-of-week rows unchanged. -/
theorem c10_unrecognized_kind_defaults_witness :
    (some "bogus" : Option String) ≠ some "choropleth" ∧
    (some "bogus" : Option String) ≠ some "hourly" ∧
    fsDemo "day_of_week.csv" = some dayRows ∧
    load_data fsDemo (some "bogus") = .ok dayRows ∧
    load_data fsDemo none = .ok dayRows :=
  ⟨by decide, by decide, rfl,
    (c10_unrecognized_kind_defaults fsDemo (some "bogus") dayRows
      (by decide) (by decide) rfl).2,
    (c10_unrecognized_kind_defaults fsDemo none dayRows
      (by decide) (by decide) rfl).2⟩
